import Mathlib

/-!
Shallow embedding of the upsell-modal widget (assets/upsell-modal.js).

The source file contains two near-duplicate versions of the same three
components (trigger, dialog, content controller); this development embeds
the first, full-featured version (variant selectors, SKU/image updates,
template-driven money formatting), which is the one the specification's
testable properties describe.

DOM state is embedded as explicit records: each queried element that may be
absent is an `Option` field, mirroring the `if (element)` guards in the
source.  JS string/number coercions (`||` defaulting, `parseInt`,
`toFixed`, dataset stringification) are modelled explicitly.  The float
division `cents / 100` followed by `toFixed` is modelled as exact decimal
arithmetic on integer minor-currency units.
-/

namespace UpsellModal

/-- JS truthiness defaulting `v || d` for an optional string attribute:
`undefined` (absent) and the empty string are falsy. -/
def jsOrDefault (v : Option String) (d : String) : String :=
  match v with
  | some s => if s = "" then d else s
  | none => d

/-- JS whitespace test used by `parseInt` for leading-whitespace skipping
(restricted to the common ASCII whitespace characters). -/
def jsIsWhitespace (c : Char) : Bool :=
  c = ' ' || c = '\t' || c = '\n' || c = '\r'

/-- Value of a list of decimal digit characters. -/
def digitsToNat (ds : List Char) : Nat :=
  ds.foldl (fun n c => 10 * n + (c.toNat - '0'.toNat)) 0

/-- Model of JS `parseInt(s, 10)`: skip leading whitespace, optional sign,
then the longest prefix of decimal digits; `none` models `NaN` (no digits). -/
def jsParseInt10 (s : String) : Option Int :=
  let cs := s.toList.dropWhile jsIsWhitespace
  let signAndRest : Int × List Char :=
    match cs with
    | '-' :: rest => (-1, rest)
    | '+' :: rest => (1, rest)
    | _ => (1, cs)
  let ds := signAndRest.2.takeWhile Char.isDigit
  if ds.isEmpty then none
  else some (signAndRest.1 * (digitsToNat ds : Int))

/-- Model of `(cents / 100).toFixed(2)` for an integer number of cents:
exact rendering with two decimal places. -/
def toFixed2 (cents : Int) : String :=
  let sign := if cents < 0 then "-" else ""
  let n := cents.natAbs
  let frac := n % 100
  sign ++ toString (n / 100) ++ "." ++
    (if frac < 10 then "0" ++ toString frac else toString frac)

/-- Model of `(cents / 100).toFixed(0)` for an integer number of cents:
rounding half toward positive infinity, as `Number.prototype.toFixed`
specifies ("if there are two such n, pick the larger n"). -/
def toFixed0 (cents : Int) : String :=
  toString (Int.fdiv (cents + 50) 100)

/-- Dispatch of `(cents / 100).toFixed(precision)` for the two precisions
the formatter uses (0 and 2). -/
def toFixedPrec (cents : Int) (precision : Nat) : String :=
  if precision = 0 then toFixed0 cents else toFixed2 cents

/-- Characters before the first `'.'`. -/
def takeUntilDot : List Char → List Char
  | [] => []
  | '.' :: _ => []
  | c :: rest => c :: takeUntilDot rest

/-- Characters after the first `'.'`, or `none` when there is no dot. -/
def dropThroughDot : List Char → Option (List Char)
  | [] => none
  | '.' :: rest => some rest
  | _ :: rest => dropThroughDot rest

/-- Model of `roundedNumber.split('.')` destructured as `[a, b]` with the
subsequent `if (!a) a = '0'; if (!b) b = '';` defaulting. -/
def splitDot (s : String) : String × String :=
  let cs := s.toList
  let a := String.mk (takeUntilDot cs)
  let b :=
    match dropThroughDot cs with
    | none => ""
    | some rest => String.mk (takeUntilDot rest)
  (if a = "" then "0" else a, b)

/-- Model of JS `String.prototype.padEnd(n, '0')`. -/
def padEndZero (s : String) (n : Nat) : String :=
  s ++ String.mk (List.replicate (n - s.length) '0')

/-- Length of the run of decimal digits at the head of the list. -/
def digitRunLen : List Char → Nat
  | [] => 0
  | c :: rest => if c.isDigit then 1 + digitRunLen rest else 0

/-- Model of `a.replace(/\d(?=(\d\d\d)+(?!\d))/g, d => d + sep)`: insert
the thousands separator after every digit that is followed by a positive
multiple of three consecutive digits. -/
def groupDigitsAux (sep : String) : List Char → String
  | [] => ""
  | c :: rest =>
    let tail := groupDigitsAux sep rest
    if c.isDigit && digitRunLen rest > 0 && digitRunLen rest % 3 = 0 then
      String.mk [c] ++ sep ++ tail
    else
      String.mk [c] ++ tail

/-- Thousands grouping of the integer part of the formatted amount. -/
def groupDigits (sep : String) (s : String) : String :=
  groupDigitsAux sep s.toList

/-- The replacement callback of `#formatMoney`: separator/precision choice
by placeholder name, then `toFixed`, split, thousands grouping and decimal
reassembly, exactly following the source's if/else chain. -/
def placeholderValue (cents : Int) (ph : String) : String :=
  let thousandsSeparator :=
    if ph = "amount_with_comma_separator" then "."
    else if ph = "amount_no_decimals_with_comma_separator" then "."
    else if ph = "amount_no_decimals_with_space_separator" then " "
    else if ph = "amount_with_space_separator" then " "
    else if ph = "amount_with_period_and_space_separator" then " "
    else if ph = "amount_with_apostrophe_separator" then "\x27"
    else ","
  let decimalSeparator :=
    if ph = "amount_with_comma_separator" then ","
    else if ph = "amount_with_space_separator" then ","
    else "."
  let precision : Nat :=
    if ph = "amount_no_decimals" then 0
    else if ph = "amount_no_decimals_with_comma_separator" then 0
    else if ph = "amount_no_decimals_with_space_separator" then 0
    else 2
  let ab := splitDot (toFixedPrec cents precision)
  let a := groupDigits thousandsSeparator ab.1
  if precision = 0 then a
  else a ++ decimalSeparator ++ padEndZero ab.2 precision

/-- Word-character test of the JS regex class `\w` (ASCII letters, digits,
underscore). -/
def isWordChar (c : Char) : Bool :=
  c.isAlphanum || c = '_'

/-- Whitespace test of the JS regex class `\s` (restricted to the common
ASCII whitespace characters). -/
def isRegexSpace (c : Char) : Bool :=
  c = ' ' || c = '\t' || c = '\n' || c = '\r'

/-- Attempt to match the regex `\x7b\x7b\s*(\w+)\s*\x7d\x7d` at the head of
the character list; on success return the captured word and the remainder. -/
def matchPlaceholderAt (cs : List Char) : Option (String × List Char) :=
  match cs with
  | '\x7b' :: '\x7b' :: rest =>
    let r1 := rest.dropWhile isRegexSpace
    let w := r1.takeWhile isWordChar
    let r2 := r1.dropWhile isWordChar
    if w.isEmpty then none
    else
      match r2.dropWhile isRegexSpace with
      | '\x7d' :: '\x7d' :: r4 => some (String.mk w, r4)
      | _ => none
  | _ => none

/-- Global left-to-right, non-overlapping regex replacement of
`/\x7b\x7b\s*(\w+)\s*\x7d\x7d/g` by the formatter callback; `fuel` bounds the
scan (one unit per character position). -/
def replacePlaceholders (cents : Int) : Nat → List Char → String
  | 0, cs => String.mk cs
  | _ + 1, [] => ""
  | fuel + 1, c :: rest =>
    match matchPlaceholderAt (c :: rest) with
    | some (w, r) => placeholderValue cents w ++ replacePlaceholders cents fuel r
    | none => String.mk [c] ++ replacePlaceholders cents fuel rest

/-- Model of `#formatMoney` (template-driven version): `tmpl = none` models
the absence of a `template[ref="moneyFormat"]` element (fallback to
`toFixed(2)`); `tmpl = some t` models its `content.textContent`, with the
JS `|| '\x7b\x7bamount\x7d\x7d'` default when the text is empty. -/
def formatMoney (tmpl : Option String) (cents : Int) : String :=
  match tmpl with
  | none => toFixed2 cents
  | some t0 =>
    let t := if t0 = "" then "\x7b\x7bamount\x7d\x7d" else t0
    replacePlaceholders cents t.toList.length t.toList

/-- One embedded variant record from the per-card JSON script; `option1`,
`option2`, `option3` and `sku` are `none` when the JSON field is `null`,
`featured_image` is `none` when absent (holding the `src` otherwise). -/
structure Variant where
  id : String
  option1 : Option String
  option2 : Option String
  option3 : Option String
  price : Int
  available : Bool
  sku : Option String
  featured_image : Option String
deriving DecidableEq, Repr

/-- The two mutable properties of a card's checkbox input element. -/
structure Checkbox where
  disabled : Bool
  checked : Bool
deriving DecidableEq, Repr

/-- A product card element and its queried descendants.  Every descendant
that the source guards for existence is an `Option` field: `checkbox` the
checkbox input, `priceEl` and `skuEl` hold element text
content, `imgSrc` the image element's `src`, `badge` the sold-out badge's
`style.display`.  `variantScript` is the parsed JSON variant list (`none`
when the script element is missing or has empty text), `selectorValues`
the values of the `.upsell-variant-selector` selects in document order. -/
structure Card where
  isMain : Bool
  unavailableClass : Bool
  checkbox : Option Checkbox
  selectedAttr : Option String
  variantIdAttr : Option String
  priceAttr : Option String
  productImageAttr : Option String
  priceEl : Option String
  skuEl : Option String
  imgSrc : Option String
  badge : Option String
  variantScript : Option (List Variant)
  selectorValues : List String
deriving DecidableEq, Repr

/-- The content controller's state: its cards in document order, the money
format template element's text (`none` when the element is absent), and the
subtotal element's text (`none` when the element is absent). -/
structure ContentState where
  cards : List Card
  moneyTemplate : Option String
  subtotalText : Option String
deriving DecidableEq, Repr

/-- A card is selected when its `data-selected` attribute is the string
`"true"` (the `[data-selected="true"]` query). -/
def isSelected (c : Card) : Bool :=
  c.selectedAttr == some "true"

/-- Price contribution of one card in `#updateSubtotal`:
`parseInt(card.dataset.price || '0', 10)` added when not `NaN`. -/
def cardPriceValue (c : Card) : Int :=
  match jsParseInt10 (jsOrDefault c.priceAttr "0") with
  | some p => p
  | none => 0

/-- Total accumulated by `#updateSubtotal` over the selected cards. -/
def subtotalValue (cards : List Card) : Int :=
  (cards.filter isSelected).foldl (fun acc c => acc + cardPriceValue c) 0

/-- Model of `#updateSubtotal`: recompute the total over selected cards and
write it through the money formatter into the subtotal element, when that
element exists. -/
def updateSubtotal (s : ContentState) : ContentState :=
  match s.subtotalText with
  | none => s
  | some _ =>
    { s with subtotalText := some (formatMoney s.moneyTemplate (subtotalValue s.cards)) }

/-- Model of `#handleCheckboxChange` for the checkbox of card `i`, after the
browser has set the checkbox's `checked` property to `b`: mirror `b` into
`data-selected` and update the subtotal. -/
def handleCheckboxChange (s : ContentState) (i : Nat) (b : Bool) : ContentState :=
  match s.cards[i]? with
  | none => s
  | some c =>
    match c.checkbox with
    | none => s
    | some cb =>
      let c2 := { c with
        checkbox := some { cb with checked := b },
        selectedAttr := some (if b then "true" else "false") }
      updateSubtotal { s with cards := s.cards.set i c2 }

/-- Model of `#handleCardClick` on card `i`.  `targetIsCheckbox` and
`targetIsSelect` model the early returns on the event target being the
checkbox input or a select element; otherwise, when the card's checkbox
exists and is enabled, toggle it, mirror it into `data-selected`, and
update the subtotal. -/
def handleCardClick (s : ContentState) (i : Nat)
    (targetIsCheckbox targetIsSelect : Bool) : ContentState :=
  if targetIsCheckbox || targetIsSelect then s
  else
    match s.cards[i]? with
    | none => s
    | some c =>
      match c.checkbox with
      | none => s
      | some cb =>
        if cb.disabled then s
        else
          let cb2 : Checkbox := { cb with checked := !cb.checked }
          let c2 := { c with
            checkbox := some cb2,
            selectedAttr := some (if cb2.checked then "true" else "false") }
          updateSubtotal { s with cards := s.cards.set i c2 }

/-- JS strict equality `v === s` between a JSON option value (`none` models
`null`) and an indexed selector value (`none` models `undefined`): true only
when both are strings and equal (`null === undefined` is false). -/
def jsStrEq (v : Option String) (s : Option String) : Bool :=
  match v, s with
  | some a, some b => a == b
  | _, _ => false

/-- The matching predicate of `#handleVariantChange`: `option1` strictly
equals the first selector value, and `option2`/`option3` each strictly
equal the corresponding selector value or are `null` in the variant. -/
def variantMatches (sel : List String) (v : Variant) : Bool :=
  jsStrEq v.option1 sel[0]? &&
  (jsStrEq v.option2 sel[1]? || v.option2 == none) &&
  (jsStrEq v.option3 sel[2]? || v.option3 == none)

/-- The card mutations applied once `#handleVariantChange` has a matched
variant: update the variant-id and price data attributes (dataset values
stringify), the displayed price, the SKU text (set when the variant's sku
is truthy, cleared otherwise), the image and image data attribute, and, for
non-main cards, the unavailable class, checkbox disabled/checked state,
selection flag, and sold-out badge visibility. -/
def applyMatch (tmpl : Option String) (c : Card) (mv : Variant) : Card :=
  let c1 := { c with
    variantIdAttr := some mv.id,
    priceAttr := some (toString mv.price),
    priceEl := c.priceEl.map (fun _ => formatMoney tmpl mv.price) }
  let skuTruthy := match mv.sku with
    | some s => s != ""
    | none => false
  let c2 := { c1 with
    skuEl := c1.skuEl.map (fun _ =>
      if skuTruthy then "SKU: " ++ mv.sku.getD "" else "") }
  let c3 :=
    match c2.imgSrc, mv.featured_image with
    | some _, some src =>
      { c2 with imgSrc := some src, productImageAttr := some src }
    | _, _ => c2
  if c3.isMain then c3
  else if mv.available then
    let c4 := { c3 with unavailableClass := false }
    let c5 :=
      match c4.checkbox with
      | some _ => { c4 with
          checkbox := some { disabled := false, checked := true },
          selectedAttr := some "true" }
      | none => c4
    match c5.badge with
    | some _ => { c5 with badge := some "none" }
    | none => c5
  else
    let c4 := { c3 with unavailableClass := true }
    let c5 :=
      match c4.checkbox with
      | some _ => { c4 with
          checkbox := some { disabled := true, checked := false },
          selectedAttr := some "false" }
      | none => c4
    match c5.badge with
    | some _ => { c5 with badge := some "" }
    | none => c5

/-- Per-card part of `#handleVariantChange`: `none` models the handler's
early returns (missing/empty variant script, or no matching variant), in
which case nothing is mutated. -/
def cardVariantChange (tmpl : Option String) (c : Card) : Option Card :=
  match c.variantScript with
  | none => none
  | some variants =>
    match variants.find? (variantMatches c.selectorValues) with
    | none => none
    | some mv => some (applyMatch tmpl c mv)

/-- Model of `#handleVariantChange` fired by a selector inside card `i`:
on a match, apply the card mutations and update the subtotal; otherwise
the state is untouched. -/
def handleVariantChange (s : ContentState) (i : Nat) : ContentState :=
  match s.cards[i]? with
  | none => s
  | some c =>
    match cardVariantChange s.moneyTemplate c with
    | none => s
    | some c2 => updateSubtotal { s with cards := s.cards.set i c2 }

/-- One `\x7bid, quantity\x7d` line of the cart submission payload. -/
structure CartItem where
  id : String
  quantity : Nat
deriving DecidableEq, Repr

/-- The payload entry contributed by one selected card: pushed only when
`card.dataset.variantId` is truthy (present and non-empty). -/
def cardItem (c : Card) : Option CartItem :=
  match c.variantIdAttr with
  | some vid => if vid = "" then none else some { id := vid, quantity := 1 }
  | none => none

/-- The items list built by `#handleConfirm` from the cards with
`data-selected="true"`, in document order. -/
def buildItems (cards : List Card) : List CartItem :=
  (cards.filter isSelected).filterMap cardItem

/-- Outcome of the cart POST inside `#handleConfirm`: a non-ok response
throws and is caught with only a console log; an ok response schedules the
bubbling cart-update dispatch `\x7bdata: \x7bdidError: false\x7d\x7d` behind a
`setTimeout` delay in milliseconds. -/
inductive PostOutcome where
  | errorLogged
  | scheduledCartUpdate (delayMs : Nat) (didError : Bool)
deriving DecidableEq, Repr

/-- Observable result of `#handleConfirm`: either no network call at all
(empty items list), or a POST of the items with its outcome. -/
inductive ConfirmResult where
  | noRequest
  | posted (items : List CartItem) (outcome : PostOutcome)
deriving DecidableEq, Repr

/-- Model of `#handleConfirm`: build the payload from selected cards; if it
is empty return without any network call; otherwise POST it, and branch on
`response.ok` (`responseOk`). -/
def handleConfirm (cards : List Card) (responseOk : Bool) : ConfirmResult :=
  let items := buildItems cards
  if items.isEmpty then ConfirmResult.noRequest
  else
    ConfirmResult.posted items
      (if responseOk then PostOutcome.scheduledCartUpdate 2000 false
       else PostOutcome.errorLogged)

/-- The dialog's two states. -/
inductive DialogState where
  | opened
  | closed
deriving DecidableEq, Repr

/-- Model of the dialog's `handleCartUpdate` listener: on a cart-update
signal whose payload has `didError` false, close the dialog; otherwise
leave the state alone. -/
def handleCartUpdate (s : DialogState) (didError : Bool) : DialogState :=
  if didError then s else DialogState.closed

/-- Model of the guard of `#handleDialogClose`: returns whether the
body-width reflow workaround runs for the detected iOS version
(`none` models `getIOSVersion()` detecting no iOS). When the result is
false the document body width is never touched. -/
def handleDialogClose (iosVersion : Option (Nat × Nat)) : Bool :=
  match iosVersion with
  | none => false
  | some (major, minor) =>
    if major ≥ 17 || (major == 16 && minor ≥ 4) then false else true

/-- Result of the fragment fetch in `#fetchAndOpenModal`: `success` carries
the HTTP `ok` flag (which this handler never reads) and the response text;
`failure` models a rejected fetch (network error), the only path into the
`catch` block. -/
inductive FetchResult where
  | success (ok : Bool) (html : String)
  | failure
deriving DecidableEq, Repr

/-- Observable outcome of `#fetchAndOpenModal`: the content host's new
`innerHTML` (`none` when never written), whether `showDialog` was called,
and whether the trigger entered its stay-visible phase. -/
structure ModalOutcome where
  contentHtml : Option String
  dialogShown : Bool
  stayVisible : Bool
deriving DecidableEq, Repr

/-- The fallback markup injected on fetch failure, wrapping the configured
or default error message. -/
def errorHtml (message : String) : String :=
  "<p style=\"padding: 2rem; text-align: center;\">" ++ message ++ "</p>"

/-- Model of `#fetchAndOpenModal`: bail out silently when the dialog or the
content host is missing; otherwise inject the response text verbatim, or on
fetch failure inject the fallback message (`errMsgAttr` models
`dataset.errorMessage`); in both cases mark the trigger stay-visible and
show the dialog. -/
def fetchAndOpenModal (dialogPresent contentPresent : Bool)
    (errMsgAttr : Option String) (res : FetchResult) : ModalOutcome :=
  if !dialogPresent then { contentHtml := none, dialogShown := false, stayVisible := false }
  else if !contentPresent then { contentHtml := none, dialogShown := false, stayVisible := false }
  else
    let html :=
      match res with
      | FetchResult.success _ body => body
      | FetchResult.failure =>
        errorHtml (jsOrDefault errMsgAttr "Unable to load products. Please try again.")
    { contentHtml := some html, dialogShown := true, stayVisible := true }

/-- A content state whose rendered subtotal text is the money-formatted sum
of the parsed price attribute over the selected cards. -/
def subtotalCoherent (s : ContentState) : Prop :=
  s.subtotalText =
    some (formatMoney s.moneyTemplate
      (((s.cards.filter isSelected).map cardPriceValue).sum))

/-! Helper lemmas shared by the claim theorems. -/

theorem set_getElem?_eq_self : ∀ (l : List α) (i : Nat) (a : α),
    l[i]? = some a → l.set i a = l
  | [], _, _, h => by simp at h
  | _ :: _, 0, _, h => by simp at h; simp [h]
  | x :: xs, i + 1, a, h => by
    simp only [List.getElem?_cons_succ] at h
    simp [List.set_cons_succ, set_getElem?_eq_self xs i a h]

theorem foldl_add_eq_sum (f : α → Int) : ∀ (l : List α) (n : Int),
    l.foldl (fun acc c => acc + f c) n = n + (l.map f).sum
  | [], n => by simp
  | x :: xs, n => by
    simp [List.foldl_cons, foldl_add_eq_sum f xs (n + f x)]
    ring

theorem find?_eq_some_first (p : α → Bool) :
    ∀ (l : List α) (v : α), l.find? p = some v →
      p v = true ∧ ∃ j : Nat, l[j]? = some v ∧
        ∀ k : Nat, k < j → ∀ w, l[k]? = some w → p w = false
  | [], v, h => by simp at h
  | x :: xs, v, h => by
    by_cases hp : p x
    · rw [List.find?_cons_of_pos _ hp] at h
      cases h
      exact ⟨hp, 0, by simp, fun k hk => (Nat.not_lt_zero k hk).elim⟩
    · rw [List.find?_cons_of_neg _ (by simpa using hp)] at h
      obtain ⟨hv, j, hj, hfirst⟩ := find?_eq_some_first p xs v h
      refine ⟨hv, j + 1, by simpa using hj, ?_⟩
      intro k hk w hw
      cases k with
      | zero => simp at hw; simpa [hw] using hp
      | succ k => exact hfirst k (by omega) w (by simpa using hw)

theorem subtotalValue_eq_sum (cards : List Card) :
    subtotalValue cards = ((cards.filter isSelected).map cardPriceValue).sum := by
  unfold subtotalValue
  rw [foldl_add_eq_sum]
  simp

theorem subtotalValue_cons (x : Card) (l : List Card) :
    subtotalValue (x :: l) =
      (if isSelected x then cardPriceValue x else 0) + subtotalValue l := by
  simp only [subtotalValue_eq_sum, List.filter_cons]
  split <;> simp

theorem subtotalValue_eraseIdx : ∀ (l : List Card) (i : Nat) (c : Card),
    l[i]? = some c → isSelected c = false →
    subtotalValue (l.eraseIdx i) = subtotalValue l
  | [], _, _, h, _ => by simp at h
  | x :: xs, 0, c, h, hsel => by
    simp at h
    subst h
    simp [List.eraseIdx, subtotalValue_cons, hsel]
  | x :: xs, i + 1, c, h, hsel => by
    simp only [List.getElem?_cons_succ] at h
    simp [List.eraseIdx_cons_succ, subtotalValue_cons,
      subtotalValue_eraseIdx xs i c h hsel]

theorem updateSubtotal_cards (s : ContentState) :
    (updateSubtotal s).cards = s.cards := by
  unfold updateSubtotal
  split <;> rfl

theorem updateSubtotal_moneyTemplate (s : ContentState) :
    (updateSubtotal s).moneyTemplate = s.moneyTemplate := by
  unfold updateSubtotal
  split <;> rfl

theorem updateSubtotal_coherent (s : ContentState) (h : s.subtotalText.isSome) :
    subtotalCoherent (updateSubtotal s) := by
  unfold updateSubtotal subtotalCoherent
  cases hs : s.subtotalText with
  | none => rw [hs] at h; simp at h
  | some t => simp [subtotalValue_eq_sum]

theorem jsStrEq_eq_true (v s : Option String) :
    jsStrEq v s = true ↔ ∃ a, s = some a ∧ v = some a := by
  cases v <;> cases s <;> simp [jsStrEq]

theorem variantMatches_iff (sel : List String) (v : Variant) :
    variantMatches sel v = true ↔
      ((∃ a, sel[0]? = some a ∧ v.option1 = some a) ∧
       ((∃ b, sel[1]? = some b ∧ v.option2 = some b) ∨ v.option2 = none) ∧
       ((∃ b, sel[2]? = some b ∧ v.option3 = some b) ∨ v.option3 = none)) := by
  simp [variantMatches, Bool.and_eq_true, Bool.or_eq_true, jsStrEq_eq_true, and_assoc]

theorem applyMatch_core (tmpl : Option String) (c : Card) (mv : Variant) :
    (applyMatch tmpl c mv).variantIdAttr = some mv.id ∧
    (applyMatch tmpl c mv).priceAttr = some (toString mv.price) := by
  cases himg : c.imgSrc <;> cases hfi : mv.featured_image <;>
    cases hm : c.isMain <;> cases hav : mv.available <;>
    cases hcb : c.checkbox <;> cases hbd : c.badge <;> cases hsku : mv.sku <;>
    simp [applyMatch, himg, hfi, hm, hav, hcb, hbd, hsku]

theorem applyMatch_nonmain_unavailable (tmpl : Option String) (c : Card)
    (mv : Variant) (hm : c.isMain = false) (cb : Checkbox)
    (hcb : c.checkbox = some cb) (bd : String) (hbd : c.badge = some bd)
    (hav : mv.available = false) :
    (applyMatch tmpl c mv).checkbox = some { disabled := true, checked := false } ∧
    (applyMatch tmpl c mv).selectedAttr = some "false" ∧
    (applyMatch tmpl c mv).unavailableClass = true ∧
    (applyMatch tmpl c mv).badge = some "" := by
  cases himg : c.imgSrc <;> cases hfi : mv.featured_image <;> cases hsku : mv.sku <;>
    simp [applyMatch, himg, hfi, hm, hav, hcb, hbd, hsku]

theorem applyMatch_nonmain_available (tmpl : Option String) (c : Card)
    (mv : Variant) (hm : c.isMain = false) (cb : Checkbox)
    (hcb : c.checkbox = some cb) (bd : String) (hbd : c.badge = some bd)
    (hav : mv.available = true) :
    (applyMatch tmpl c mv).checkbox = some { disabled := false, checked := true } ∧
    (applyMatch tmpl c mv).selectedAttr = some "true" ∧
    (applyMatch tmpl c mv).unavailableClass = false ∧
    (applyMatch tmpl c mv).badge = some "none" := by
  cases himg : c.imgSrc <;> cases hfi : mv.featured_image <;> cases hsku : mv.sku <;>
    simp [applyMatch, himg, hfi, hm, hav, hcb, hbd, hsku]

theorem handleVariantChange_match (s : ContentState) (i : Nat) (c : Card)
    (variants : List Variant) (mv : Variant)
    (hc : s.cards[i]? = some c) (hs : c.variantScript = some variants)
    (hfind : variants.find? (variantMatches c.selectorValues) = some mv) :
    handleVariantChange s i =
      updateSubtotal { s with cards := s.cards.set i (applyMatch s.moneyTemplate c mv) } := by
  unfold handleVariantChange cardVariantChange
  simp only [hc, hs, hfind]

theorem handleVariantChange_nomatch (s : ContentState) (i : Nat) (c : Card)
    (variants : List Variant)
    (hc : s.cards[i]? = some c) (hs : c.variantScript = some variants)
    (hfind : variants.find? (variantMatches c.selectorValues) = none) :
    handleVariantChange s i = s := by
  unfold handleVariantChange cardVariantChange
  simp only [hc, hs, hfind]

theorem updateSubtotal_eq (X : ContentState) (t : String)
    (h : X.subtotalText = some t) :
    updateSubtotal X =
      { X with subtotalText := (some
          (formatMoney X.moneyTemplate (subtotalValue X.cards))) } := by
  unfold updateSubtotal
  simp only [h]

/-- The card produced by one selection toggle of `#handleCardClick`: the
checkbox's `checked` is negated and mirrored into `data-selected`. -/
def toggledCard (c : Card) (cb : Checkbox) : Card :=
  { c with
    checkbox := some { cb with checked := !cb.checked },
    selectedAttr := some (if !cb.checked then "true" else "false") }

theorem handleCardClick_toggle (s : ContentState) (i : Nat) (c : Card)
    (cb : Checkbox) (hc : s.cards[i]? = some c) (hcb : c.checkbox = some cb)
    (hen : cb.disabled = false) :
    handleCardClick s i false false =
      updateSubtotal { s with cards := s.cards.set i (toggledCard c cb) } := by
  unfold handleCardClick toggledCard
  simp only [hc, hcb, hen]
  rfl

/-! Concrete fixtures used by witnesses. -/

/-- Fixture: a selected, enabled add-on card priced 1000 with variant 101. -/
def exCardA : Card :=
  { isMain := false, unavailableClass := false,
    checkbox := some { disabled := false, checked := true },
    selectedAttr := some "true", variantIdAttr := some "101",
    priceAttr := some "1000", productImageAttr := none,
    priceEl := some "10.00", skuEl := some "", imgSrc := none,
    badge := some "none", variantScript := none, selectorValues := [] }

/-- Fixture: a selected, enabled add-on card priced 1500 with variant 202. -/
def exCardB : Card :=
  { exCardA with variantIdAttr := some "202", priceAttr := some "1500" }

/-- Fixture: a selected card with no variant-id attribute. -/
def exCardNoVid : Card :=
  { exCardA with variantIdAttr := none }

/-- Fixture: an unselected card. -/
def exCardOff : Card :=
  { exCardA with
    checkbox := some { disabled := false, checked := false },
    selectedAttr := some "false" }

/-- Fixture: a content state with the two selected cards priced 1000 and
1500, no money template, and a coherent subtotal of 2500 minor units. -/
def exState : ContentState :=
  { cards := [exCardA, exCardB], moneyTemplate := none,
    subtotalText := some "25.00" }

/-- Fixture: an available variant with options S/Red. -/
def exVariantA : Variant :=
  { id := "101", option1 := some "S", option2 := some "Red", option3 := none,
    price := 1000, available := true, sku := some "SKU1",
    featured_image := some "a.jpg" }

/-- Fixture: an unavailable variant with option M only. -/
def exVariantB : Variant :=
  { id := "102", option1 := some "M", option2 := none, option3 := none,
    price := 1500, available := false, sku := none, featured_image := none }

/-- Fixture: a non-main card embedding the two variants, with selector
value M chosen (matching the unavailable variant). -/
def exCardVar : Card :=
  { exCardA with
    variantScript := some [exVariantA, exVariantB],
    selectorValues := ["M"] }

/-- Fixture: the same card with a selector value matching no variant. -/
def exCardVarNoMatch : Card :=
  { exCardVar with selectorValues := ["XXL"] }

/-- Fixture: a one-card state for the variant-change witnesses. -/
def exStateVar : ContentState :=
  { cards := [exCardVar], moneyTemplate := none, subtotalText := some "10.00" }

/-- Fixture: a one-card state whose selector values match no variant. -/
def exStateVarNoMatch : ContentState :=
  { cards := [exCardVarNoMatch], moneyTemplate := none,
    subtotalText := some "10.00" }

/-- C1: on a selector change, the controller selects the first variant in
list order satisfying the matching predicate — `option1` equal to the
first selector value, `option2` and `option3` each equal to the
corresponding selector value or null in the variant (the selector values
being read in positional order) — and writes its id and price into the
card; when no variant matches, the whole state, hence the card's variant
id, price, displayed price, SKU, image and selection, is left unchanged. -/
theorem upsell_c1 (s : ContentState) (i : Nat) (c : Card)
    (variants : List Variant)
    (hc : s.cards[i]? = some c) (hs : c.variantScript = some variants) :
    (∀ mv, variants.find? (variantMatches c.selectorValues) = some mv →
      (((∃ a, c.selectorValues[0]? = some a ∧ mv.option1 = some a) ∧
        ((∃ b, c.selectorValues[1]? = some b ∧ mv.option2 = some b) ∨
          mv.option2 = none) ∧
        ((∃ b, c.selectorValues[2]? = some b ∧ mv.option3 = some b) ∨
          mv.option3 = none)) ∧
       (∃ j : Nat, variants[j]? = some mv ∧
         ∀ k : Nat, k < j → ∀ w, variants[k]? = some w →
           variantMatches c.selectorValues w = false) ∧
       (∃ c2, (handleVariantChange s i).cards[i]? = some c2 ∧
         c2.variantIdAttr = some mv.id ∧
         c2.priceAttr = some (toString mv.price)))) ∧
    (variants.find? (variantMatches c.selectorValues) = none →
      handleVariantChange s i = s) := by
  constructor
  · intro mv hfind
    obtain ⟨hmatch, j, hj, hfirst⟩ := find?_eq_some_first _ _ _ hfind
    refine ⟨(variantMatches_iff _ _).mp hmatch, ⟨j, hj, hfirst⟩, ?_⟩
    refine ⟨applyMatch s.moneyTemplate c mv, ?_,
      (applyMatch_core _ _ _).1, (applyMatch_core _ _ _).2⟩
    rw [handleVariantChange_match s i c variants mv hc hs hfind,
      updateSubtotal_cards]
    have hlt : i < s.cards.length := by
      rw [List.getElem?_eq_some] at hc
      exact hc.1
    exact List.getElem?_set_self hlt
  · exact handleVariantChange_nomatch s i c variants hc hs

/-- Witness for C1: with a selector value matching no variant the state
is untouched; with a matching selector the matched variant's id and price
are written to the card. -/
theorem upsell_c1_witness :
    handleVariantChange exStateVarNoMatch 0 = exStateVarNoMatch ∧
    (handleVariantChange exStateVar 0).cards[0]?.map
      (fun c => (c.variantIdAttr, c.priceAttr)) =
      some (some "102", some "1500") :=
  ⟨(upsell_c1 exStateVarNoMatch 0 exCardVarNoMatch [exVariantA, exVariantB]
      rfl rfl).2 (by rfl), by rfl⟩

/-- C2: confirming with exactly two selected cards, each carrying a
non-empty variant id, posts exactly the two corresponding
id/quantity-1 entries in card order; the outcome is the scheduled
bubbling cart-update dispatch with `didError` false after the fixed
2000 ms delay exactly when the response status is success, and only a
logged error otherwise (so the close sequence never runs); the dialog,
on receiving the `didError`-false signal, transitions to closed. -/
theorem upsell_c2 (cards : List Card) (ca cb : Card) (va vb : String)
    (ok : Bool)
    (hsel : cards.filter isSelected = [ca, cb])
    (ha : ca.variantIdAttr = some va) (han : va ≠ "")
    (hb : cb.variantIdAttr = some vb) (hbn : vb ≠ "") :
    handleConfirm cards ok =
      ConfirmResult.posted
        [{ id := va, quantity := 1 }, { id := vb, quantity := 1 }]
        (if ok then PostOutcome.scheduledCartUpdate 2000 false
         else PostOutcome.errorLogged) ∧
    handleCartUpdate DialogState.opened false = DialogState.closed := by
  have hitems : buildItems cards =
      [{ id := va, quantity := 1 }, { id := vb, quantity := 1 }] := by
    simp [buildItems, hsel, cardItem, ha, hb, han, hbn]
  constructor
  · simp [handleConfirm, hitems]
  · rfl

/-- Witness for C2 at the concrete two-card state: both the success and
the failure response are exercised. -/
theorem upsell_c2_witness :
    (handleConfirm exState.cards true =
      ConfirmResult.posted
        [{ id := "101", quantity := 1 }, { id := "202", quantity := 1 }]
        (PostOutcome.scheduledCartUpdate 2000 false) ∧
     handleCartUpdate DialogState.opened false = DialogState.closed) ∧
    handleConfirm exState.cards false =
      ConfirmResult.posted
        [{ id := "101", quantity := 1 }, { id := "202", quantity := 1 }]
        PostOutcome.errorLogged :=
  ⟨upsell_c2 exState.cards exCardA exCardB "101" "202" true
      (by decide) rfl (by decide) rfl (by decide),
    by decide⟩

/-- C3: every entry of the cart payload built at confirm time has a
non-empty id (and quantity 1) — selected cards without a truthy variant
id are omitted — and when the payload is empty, in particular when no
card is selected, no network call is performed. -/
theorem upsell_c3 (cards : List Card) (ok : Bool) :
    (∀ it ∈ buildItems cards, it.id ≠ "" ∧ it.quantity = 1) ∧
    (buildItems cards = [] → handleConfirm cards ok = ConfirmResult.noRequest) ∧
    (cards.filter isSelected = [] →
      handleConfirm cards ok = ConfirmResult.noRequest) := by
  refine ⟨?_, ?_, ?_⟩
  · intro it hit
    unfold buildItems at hit
    rw [List.mem_filterMap] at hit
    obtain ⟨c, _, hc⟩ := hit
    unfold cardItem at hc
    cases hvid : c.variantIdAttr with
    | none => rw [hvid] at hc; simp at hc
    | some vid =>
      rw [hvid] at hc
      by_cases hv : vid = ""
      · simp [hv] at hc
      · simp [hv] at hc
        cases hc
        exact ⟨hv, rfl⟩
  · intro h
    simp [handleConfirm, h]
  · intro h
    simp [handleConfirm, buildItems, h]

/-- Witness for C3: with zero selected cards no request happens, and a
selected card with no variant id is dropped from the payload. -/
theorem upsell_c3_witness :
    handleConfirm [exCardOff] true = ConfirmResult.noRequest ∧
    buildItems [exCardNoVid, exCardB] = [{ id := "202", quantity := 1 }] :=
  ⟨(upsell_c3 [exCardOff] true).2.2 (by decide), by decide⟩

/-- C5: the money formatter maps 2500 cents to "25.00" under the default
template (both an empty template text, which the code defaults, and the
explicit amount placeholder), to "25" under the no-decimals placeholder,
to "25,00" under the comma-as-decimal placeholder, and falls back to the
fixed two-decimal `toFixed(2)` rendering when no template element is
configured. -/
theorem upsell_c5 :
    formatMoney (some "") 2500 = "25.00" ∧
    formatMoney (some "\x7b\x7bamount\x7d\x7d") 2500 = "25.00" ∧
    formatMoney (some "\x7b\x7bamount_no_decimals\x7d\x7d") 2500 = "25" ∧
    formatMoney (some "\x7b\x7bamount_with_comma_separator\x7d\x7d") 2500 = "25,00" ∧
    formatMoney none 2500 = toFixed2 2500 ∧
    formatMoney none 2500 = "25.00" :=
  ⟨rfl, rfl, rfl, rfl, rfl, rfl⟩

/-- C7: on a fetch failure during fragment load (with the dialog and the
content host present), the content host is rewritten with the configured
error message — or the default "Unable to load products. Please try
again." when none or an empty one is configured — and the dialog is still
shown. -/
theorem upsell_c7 (errMsgAttr : Option String) :
    fetchAndOpenModal true true errMsgAttr FetchResult.failure =
      { contentHtml := some (errorHtml
          (jsOrDefault errMsgAttr "Unable to load products. Please try again.")),
        dialogShown := true, stayVisible := true } := rfl

/-- C10: a fragment response with any HTTP status — in particular a
non-success one — has its body injected into the content host verbatim,
the status flag never being examined, and the dialog is shown; the
fallback message is reserved for rejected fetches. -/
theorem upsell_c10 (errMsgAttr : Option String) (ok : Bool) (html : String) :
    fetchAndOpenModal true true errMsgAttr (FetchResult.success ok html) =
      { contentHtml := some html, dialogShown := true, stayVisible := true } := rfl

/-- Counterexample for C8 as stated: on detected iOS 16.4 the major
version is less than 17, so the claimed disjunction holds, yet the
workaround does not run. -/
theorem upsell_c8_counterexample :
    ¬ (handleDialogClose (some (16, 4)) = true ↔
        (16 < 17 ∨ (16 = 16 ∧ 4 < 4))) := by decide

/-- C8 (amended): the reflow workaround runs exactly when an iOS version
is detected whose major version is at most 15, or whose major version is
16 with minor version less than 4; in every other case, including when no
iOS version is detected, it does not run and the body width is never
touched. -/
theorem upsell_c8 :
    handleDialogClose none = false ∧
    ∀ major minor : Nat,
      (handleDialogClose (some (major, minor)) = true ↔
        (major ≤ 15 ∨ (major = 16 ∧ minor ≤ 3))) := by
  refine ⟨rfl, ?_⟩
  intro major minor
  simp only [handleDialogClose]
  split
  · next h =>
    simp only [Bool.or_eq_true, decide_eq_true_eq, Bool.and_eq_true, beq_iff_eq] at h
    simp
    omega
  · next h =>
    simp only [Bool.or_eq_true, decide_eq_true_eq, Bool.and_eq_true, beq_iff_eq] at h
    push_neg at h
    simp
    omega

/-- C4: after a checkbox change, a card click, or a variant change, when
the handler alters anything at all, the rendered subtotal is the
money-formatted sum of the parsed integer price attribute over exactly the
cards whose selection flag is true (and a handler that changed nothing
leaves the state untouched). -/
theorem upsell_c4 (s : ContentState) (i : Nat) (b : Bool)
    (targetIsCheckbox targetIsSelect : Bool)
    (hsub : s.subtotalText.isSome) :
    (handleCheckboxChange s i b = s ∨
      subtotalCoherent (handleCheckboxChange s i b)) ∧
    (handleCardClick s i targetIsCheckbox targetIsSelect = s ∨
      subtotalCoherent (handleCardClick s i targetIsCheckbox targetIsSelect)) ∧
    (handleVariantChange s i = s ∨
      subtotalCoherent (handleVariantChange s i)) := by
  refine ⟨?_, ?_, ?_⟩
  · cases hci : s.cards[i]? with
    | none => exact Or.inl (by unfold handleCheckboxChange; simp only [hci])
    | some c =>
      cases hcb : c.checkbox with
      | none => exact Or.inl (by unfold handleCheckboxChange; simp only [hci, hcb])
      | some cb =>
        refine Or.inr ?_
        have he : handleCheckboxChange s i b =
            updateSubtotal { s with cards := (s.cards.set i { c with
              checkbox := some { cb with checked := b },
              selectedAttr := some (if b then "true" else "false") }) } := by
          unfold handleCheckboxChange
          simp only [hci, hcb]
        rw [he]
        exact updateSubtotal_coherent _ hsub
  · by_cases ht : targetIsCheckbox || targetIsSelect
    · exact Or.inl (by unfold handleCardClick; simp only [ht, if_pos rfl]; simp [ht])
    · cases hci : s.cards[i]? with
      | none => exact Or.inl (by unfold handleCardClick; simp only [hci]; simp [ht])
      | some c =>
        cases hcb : c.checkbox with
        | none => exact Or.inl (by unfold handleCardClick; simp only [hci, hcb]; simp [ht])
        | some cb =>
          by_cases hdis : cb.disabled
          · exact Or.inl (by unfold handleCardClick; simp only [hci, hcb]; simp [ht, hdis])
          · refine Or.inr ?_
            have he : handleCardClick s i targetIsCheckbox targetIsSelect =
                updateSubtotal { s with cards := (s.cards.set i { c with
                  checkbox := some { cb with checked := !cb.checked },
                  selectedAttr := some (if !cb.checked then "true" else "false") }) } := by
              unfold handleCardClick
              simp only [hci, hcb]
              simp [ht, hdis]
            rw [he]
            exact updateSubtotal_coherent _ hsub
  · cases hci : s.cards[i]? with
    | none => exact Or.inl (by unfold handleVariantChange; simp only [hci])
    | some c =>
      cases hcv : cardVariantChange s.moneyTemplate c with
      | none => exact Or.inl (by unfold handleVariantChange; simp only [hci, hcv])
      | some c2 =>
        refine Or.inr ?_
        have he : handleVariantChange s i =
            updateSubtotal { s with cards := s.cards.set i c2 } := by
          unfold handleVariantChange
          simp only [hci, hcv]
        rw [he]
        exact updateSubtotal_coherent _ hsub

/-- Witness for C4 at the concrete two-card state (prices 1000 and 1500
minor units): the checkbox-change handler leaves the subtotal coherent,
and, evaluated, the selected-card prices sum to 2500 and render
as "25.00". -/
theorem upsell_c4_witness :
    (handleCheckboxChange exState 0 true = exState ∨
      subtotalCoherent (handleCheckboxChange exState 0 true)) ∧
    ((exState.cards.filter isSelected).map cardPriceValue).sum = 2500 ∧
    (handleCheckboxChange exState 0 true).subtotalText = some "25.00" :=
  ⟨(upsell_c4 exState 0 true false false rfl).1, by decide, by decide⟩

/-- C6: when a variant change on a non-main card matches an unavailable
variant, the checkbox becomes disabled and unchecked, the selection flag
becomes false so the card contributes nothing to the subsequent subtotal
(removing it from the card list leaves the subtotal value unchanged), the
unavailable visual class is applied and the sold-out badge is shown
(display reset to visible); when the matched variant is available, the
checkbox becomes enabled and forced checked, the selection flag becomes
true, the unavailable class is removed and the badge is hidden. -/
theorem upsell_c6 (s : ContentState) (i : Nat) (c : Card)
    (variants : List Variant) (mv : Variant) (cb : Checkbox) (bd : String)
    (hc : s.cards[i]? = some c) (hs : c.variantScript = some variants)
    (hfind : variants.find? (variantMatches c.selectorValues) = some mv)
    (hm : c.isMain = false) (hcb : c.checkbox = some cb)
    (hbd : c.badge = some bd) :
    ∃ c2, (handleVariantChange s i).cards[i]? = some c2 ∧
      (mv.available = false →
        c2.checkbox = some { disabled := true, checked := false } ∧
        c2.selectedAttr = some "false" ∧ isSelected c2 = false ∧
        c2.unavailableClass = true ∧ c2.badge = some "" ∧
        subtotalValue ((handleVariantChange s i).cards.eraseIdx i) =
          subtotalValue (handleVariantChange s i).cards) ∧
      (mv.available = true →
        c2.checkbox = some { disabled := false, checked := true } ∧
        c2.selectedAttr = some "true" ∧ isSelected c2 = true ∧
        c2.unavailableClass = false ∧ c2.badge = some "none") := by
  have hlt : i < s.cards.length := by
    rw [List.getElem?_eq_some] at hc
    exact hc.1
  have hcards : (handleVariantChange s i).cards =
      s.cards.set i (applyMatch s.moneyTemplate c mv) := by
    rw [handleVariantChange_match s i c variants mv hc hs hfind,
      updateSubtotal_cards]
  have hgot : (handleVariantChange s i).cards[i]? =
      some (applyMatch s.moneyTemplate c mv) := by
    rw [hcards]
    exact List.getElem?_set_self hlt
  refine ⟨applyMatch s.moneyTemplate c mv, hgot, ?_, ?_⟩
  · intro hav
    obtain ⟨h1, h2, h3, h4⟩ :=
      applyMatch_nonmain_unavailable s.moneyTemplate c mv hm cb hcb bd hbd hav
    have hsel : isSelected (applyMatch s.moneyTemplate c mv) = false := by
      simp [isSelected, h2]
    exact ⟨h1, h2, hsel, h3, h4,
      subtotalValue_eraseIdx _ i _ hgot hsel⟩
  · intro hav
    obtain ⟨h1, h2, h3, h4⟩ :=
      applyMatch_nonmain_available s.moneyTemplate c mv hm cb hcb bd hbd hav
    exact ⟨h1, h2, by simp [isSelected, h2], h3, h4⟩

/-- C9: for a card whose checkbox is enabled and whose selection flag
agrees with its checked state, in a state whose rendered subtotal is
coherent, clicking the card twice in a row restores the entire state —
in particular the original checked state, selection flag and subtotal. -/
theorem upsell_c9 (s : ContentState) (i : Nat) (c : Card) (cb : Checkbox)
    (hc : s.cards[i]? = some c) (hcb : c.checkbox = some cb)
    (hen : cb.disabled = false)
    (hflag : c.selectedAttr = some (if cb.checked then "true" else "false"))
    (hcoh : subtotalCoherent s) :
    handleCardClick (handleCardClick s i false false) i false false = s := by
  have hlt : i < s.cards.length := by
    rw [List.getElem?_eq_some] at hc
    exact hc.1
  have ht : s.subtotalText =
      some (formatMoney s.moneyTemplate (subtotalValue s.cards)) := by
    rw [hcoh, subtotalValue_eq_sum]
  have h1 : handleCardClick s i false false =
      ContentState.mk (s.cards.set i (toggledCard c cb)) s.moneyTemplate
        (some (formatMoney s.moneyTemplate
          (subtotalValue (s.cards.set i (toggledCard c cb))))) := by
    rw [handleCardClick_toggle s i c cb hc hcb hen]
    unfold updateSubtotal
    simp only [ht]
  have hback : toggledCard (toggledCard c cb)
      { cb with checked := !cb.checked } = c := by
    unfold toggledCard
    simp only [Bool.not_not]
    rw [← hcb, ← hflag]
  have hset : (s.cards.set i (toggledCard c cb)).set i c = s.cards := by
    rw [List.set_set]
    exact set_getElem?_eq_self s.cards i c hc
  have h2 : handleCardClick (handleCardClick s i false false) i false false =
      updateSubtotal (ContentState.mk s.cards s.moneyTemplate
        (some (formatMoney s.moneyTemplate
          (subtotalValue (s.cards.set i (toggledCard c cb)))))) := by
    rw [h1]
    have hc2 : (ContentState.mk (s.cards.set i (toggledCard c cb)) s.moneyTemplate
        (some (formatMoney s.moneyTemplate
          (subtotalValue (s.cards.set i (toggledCard c cb)))))).cards[i]? =
        some (toggledCard c cb) := by
      exact List.getElem?_set_self hlt
    rw [handleCardClick_toggle _ i (toggledCard c cb)
      { cb with checked := !cb.checked } hc2 rfl hen]
    rw [hback]
    show updateSubtotal (ContentState.mk
      ((s.cards.set i (toggledCard c cb)).set i c) s.moneyTemplate _) = _
    rw [hset]
  rw [h2]
  unfold updateSubtotal
  simp only []
  show ContentState.mk s.cards s.moneyTemplate
    (some (formatMoney s.moneyTemplate (subtotalValue s.cards))) = s
  rw [← ht]

/-- Witness for C6 at the concrete one-card state whose selector matches
the unavailable variant: the resulting card is disabled, unchecked,
deselected, visually unavailable, with the sold-out badge shown, and the
subtotal ignores it. -/
theorem upsell_c6_witness :
    ∃ c2, (handleVariantChange exStateVar 0).cards[0]? = some c2 ∧
      (exVariantB.available = false →
        c2.checkbox = some { disabled := true, checked := false } ∧
        c2.selectedAttr = some "false" ∧ isSelected c2 = false ∧
        c2.unavailableClass = true ∧ c2.badge = some "" ∧
        subtotalValue ((handleVariantChange exStateVar 0).cards.eraseIdx 0) =
          subtotalValue (handleVariantChange exStateVar 0).cards) ∧
      (exVariantB.available = true →
        c2.checkbox = some { disabled := false, checked := true } ∧
        c2.selectedAttr = some "true" ∧ isSelected c2 = true ∧
        c2.unavailableClass = false ∧ c2.badge = some "none") :=
  upsell_c6 exStateVar 0 exCardVar [exVariantA, exVariantB] exVariantB
    { disabled := false, checked := true } "none" rfl rfl (by rfl) rfl rfl rfl

/-- Witness for C9: double-clicking the 1000-unit card of the concrete
two-card state returns exactly the original state. -/
theorem upsell_c9_witness :
    handleCardClick (handleCardClick exState 0 false false) 0 false false =
      exState :=
  upsell_c9 exState 0 exCardA { disabled := false, checked := true }
    rfl rfl rfl rfl (by rfl)

end UpsellModal
